import Mathlib

/-!
Verification of virttest/utils_libvirt/libvirt_ceph_utils.py.

The module is a parameter-driven orchestration layer: it shells out to
external CLI tools and mutates a vm XML document.  We embed it as a state
machine over an explicit world (the process-global cleanup list, a small
filesystem map, and the set of defined libvirt secrets), recording every
call to an external collaborator as an event in a trace.
-/

namespace LibvirtCephUtils

/-- Python truthiness of an optional string parameter: None and the empty
string are falsy, every other string is truthy. -/
def truthy : Option String → Bool
  | none => false
  | some s => s != ""

/-- Python %s-formatting of a possibly-None value. -/
def pyStr : Option String → String
  | none => "None"
  | some s => s

/-- Python str.split with a one-character separator. -/
def pySplit (s : String) (c : Char) : List String :=
  (s.data.splitOn c).map (fun l => String.mk l)

/-- The test parameters dictionary: each key used by the module is either
absent or mapped to a string. -/
structure Params where
  virt_disk_device_format : Option String := none
  virt_disk_device_bus : Option String := none
  virt_disk_device : Option String := none
  virt_disk_device_target : Option String := none
  virt_disk_device_hotplug : Option String := none
  virt_device_attach_option : Option String := none
  keep_raw_image_as : Option String := none
  ceph_mon_ip : Option String := none
  ceph_host_port : Option String := none
  ceph_disk_name : Option String := none
  ceph_client_name : Option String := none
  ceph_client_key : Option String := none
  ceph_auth_user : Option String := none
  ceph_auth_key : Option String := none
  ceph_auth_sec_usage_type : Option String := none
  storage_size : Option String := none
  ceph_image_file : Option String := none
  deriving DecidableEq

/-- One call to an external collaborator, recorded with its arguments. -/
inductive Event where
  | dumpXml (vmName : String)
  | packageInstall (pkgs : List String)
  | createConfigFile (monIp path : String)
  | writeFile (path content : String)
  | createSecret (usage secName uuid : String)
  | secretSetValue (uuid : String) (value : Option String)
  | rbdImageRm (monIp pool image : String) (keyfile : Option String)
  | runCmd (cmd : String)
  | attachDevice (vmName flagstr : String)
  | addDeviceSync (vmName : String)
  | secretUndefine (uuid : String)
  | removeFile (path : String)
  | deleteLocalDisk (diskType path : String)
  deriving DecidableEq

/-- The Python exceptions the module can raise. -/
inductive PyError where
  | attributeError (attr : String)
  | indexError
  | testError (msg : String)
  deriving DecidableEq

deriving instance DecidableEq for Except

/-- Mutable world: the process-global _FILES_FOR_CLEANUP list, the local
filesystem (path, content), and the uuids of defined libvirt secrets. -/
structure World where
  cleanupList : List String := []
  fs : List (String × String) := []
  secrets : List String := []
  deriving DecidableEq

/-- A fresh process: empty cleanup list, empty filesystem, no secrets. -/
def initWorld : World := {}

/-- os.path.exists on the embedded filesystem. -/
def fsExists (fs : List (String × String)) (p : String) : Bool :=
  fs.any (fun e => e.1 == p)

/-- open(p, w).write(c) on the embedded filesystem. -/
def fsWrite (fs : List (String × String)) (p c : String) : List (String × String) :=
  (p, c) :: fs.filter (fun e => e.1 != p)

/-- os.remove on the embedded filesystem. -/
def fsRemove (fs : List (String × String)) (p : String) : List (String × String) :=
  fs.filter (fun e => e.1 != p)

/-- Read a file content back from the embedded filesystem. -/
def fsRead (fs : List (String × String)) (p : String) : Option String :=
  (fs.find? (fun e => e.1 == p)).map (fun e => e.2)

/-- Ambient host facts fixed for one call: the tmp and data directory
helpers, the path the cluster-config helper manages, whether package
installation succeeds, the uuid the secret-management subsystem returns for
the next created secret, and the vm name. -/
structure Env where
  tmpDir : String
  dataDir : String
  cfgFilePath : String
  installOk : Bool
  secretUuid : String
  vmName : String
  deriving DecidableEq

/-- The disk auth block handed to the disk XML builder. -/
structure DiskAuthDict where
  auth_user : Option String
  secret_type : String
  secret_uuid : String
  deriving DecidableEq

/-- _Config: the flat record of parameters and derived state (lines 31-78). -/
structure Config where
  device_format : String
  device_bus : String
  device : String
  device_target : String
  hotplug : Bool
  attach_option : String
  keep_raw_image_as : Bool
  ceph_mon_ip : String
  ceph_host_port : String
  ceph_disk_name : String
  ceph_client_name : Option String
  ceph_client_key : Option String
  ceph_auth_user : Option String
  ceph_auth_key : Option String
  auth_sec_usage_type : String
  storage_size : String
  img_file : Option String
  key_file : String
  key_opt : String
  is_local_img_file : Bool
  rbd_key_file : Option String
  ceph_cfg : String
  disk_auth_dict : Option DiskAuthDict
  auth_sec_uuid : Option String
  deriving DecidableEq

/-- _Config.is_auth_case (lines 118-125): both the client name and the
client key must be truthy. -/
def Config.is_auth_case (c : Config) : Bool :=
  truthy c.ceph_client_name && truthy c.ceph_client_key

/-- The key-file payload written by define_auth_key. -/
def authKeyContent (principal key : String) : String :=
  "[" ++ principal ++ "]\n\tkey = " ++ key ++ "\n"

/-- Modelled from the spec: the storage-cluster config helper
ceph.create_config_file(monitor_address) is repository code outside src; per
spec section 6 it returns the cluster config file path, and per the source
comment (line 75) it creates the file only if it does not exist. -/
def create_config_file (env : Env) (w : World) (monIp : String) :
    World × List Event × String :=
  let w1 := if fsExists w.fs env.cfgFilePath then w
            else { w with fs := fsWrite w.fs env.cfgFilePath ("mon_host = " ++ monIp) }
  (w1, [Event.createConfigFile monIp env.cfgFilePath], env.cfgFilePath)

/-- _Config.define_auth_key (lines 104-116): in the auth case write the key
file and record the keyring option and the rbd key-file path. -/
def Config.define_auth_key (c : Config) (w : World) : World × List Event × Config :=
  if c.is_auth_case then
    let content := authKeyContent (pyStr c.ceph_client_name) (pyStr c.ceph_client_key)
    ({ w with fs := fsWrite w.fs c.key_file content },
     [Event.writeFile c.key_file content],
     { c with key_opt := "--keyring " ++ c.key_file, rbd_key_file := some c.key_file })
  else (w, [], c)

/-- _Config.__init__ (lines 34-78): derive fields from params with their
defaults, append the key-file path to the global cleanup list, create the
cluster config file appending its path too, then run define_auth_key. -/
def Config.init (env : Env) (w : World) (p : Params) : World × List Event × Config :=
  let key_file := env.tmpDir ++ "/ceph.key"
  let w1 : World := { w with cleanupList := w.cleanupList ++ [key_file] }
  let c0 : Config := {
    device_format := p.virt_disk_device_format.getD "raw"
    device_bus := p.virt_disk_device_bus.getD "virtio"
    device := p.virt_disk_device.getD "disk"
    device_target := p.virt_disk_device_target.getD "vdb"
    hotplug := p.virt_disk_device_hotplug.getD "no" == "yes"
    attach_option := p.virt_device_attach_option.getD "--live"
    keep_raw_image_as := p.keep_raw_image_as.getD "no" == "yes"
    ceph_mon_ip := p.ceph_mon_ip.getD "EXAMPLE_MON_HOST"
    ceph_host_port := p.ceph_host_port.getD "EXAMPLE_PORTS"
    ceph_disk_name := p.ceph_disk_name.getD "EXAMPLE_SOURCE_NAME"
    ceph_client_name := p.ceph_client_name
    ceph_client_key := p.ceph_client_key
    ceph_auth_user := p.ceph_auth_user
    ceph_auth_key := p.ceph_auth_key
    auth_sec_usage_type := p.ceph_auth_sec_usage_type.getD "ceph"
    storage_size := p.storage_size.getD "1G"
    img_file := p.ceph_image_file
    key_file := key_file
    key_opt := ""
    is_local_img_file := !truthy p.ceph_image_file
    rbd_key_file := none
    ceph_cfg := ""
    disk_auth_dict := none
    auth_sec_uuid := none }
  let r := create_config_file env w1 c0.ceph_mon_ip
  let w3 : World := { r.1 with cleanupList := r.1.cleanupList ++ [r.2.2] }
  let r2 := c0.define_auth_key w3
  (r2.1, r.2.1 ++ r2.2.1, r2.2.2)

/-- _Config.define_auth_config_and_log (lines 80-102): in the auth case
create the auth secret, set its value to ceph_auth_key, and record the disk
auth block; the device-source locator built here is only logged. -/
def Config.define_auth_config_and_log (c : Config) (env : Env) (w : World) :
    World × List Event × Config :=
  if c.is_auth_case then
    ({ w with secrets := w.secrets ++ [env.secretUuid] },
     [Event.createSecret c.auth_sec_usage_type "ceph_auth_secret" env.secretUuid,
      Event.secretSetValue env.secretUuid c.ceph_auth_key],
     { c with auth_sec_uuid := some env.secretUuid,
              disk_auth_dict := some { auth_user := c.ceph_auth_user,
                                       secret_type := c.auth_sec_usage_type,
                                       secret_uuid := env.secretUuid } })
  else (w, [], c)

/-- _remove_image (lines 245-255): split ceph_disk_name on the slash and call
ceph.rbd_image_rm with parts 0 and 1; indexing a part that does not exist is
an uncaught IndexError. -/
def remove_image (c : Config) (w : World) : World × List Event × Except PyError Unit :=
  match (pySplit c.ceph_disk_name '/')[0]?, (pySplit c.ceph_disk_name '/')[1]? with
  | some pool, some image =>
      (w, [Event.rbdImageRm c.ceph_mon_ip pool image c.rbd_key_file], Except.ok ())
  | _, _ => (w, [], Except.error PyError.indexError)

/-- The remote locator string built into the local variable disk_path of
_create_image (lines 232-237): the monitor address always, plus the auth
principal and key inline in the auth case. -/
def disk_path_of (c : Config) : String :=
  let base := "rbd:" ++ c.ceph_disk_name ++ ":mon_host=" ++ c.ceph_mon_ip
  if c.is_auth_case then
    base ++ ":id=" ++ pyStr c.ceph_auth_user ++ ":key=" ++ pyStr c.ceph_auth_key
  else base

/-- _create_image (lines 212-242): synthesize a local image when no
ceph_image_file parameter was supplied, then build the probe-or-convert
shell command.  The command string interpolates cfg.disk_path, an attribute
_Config never assigns (the constructed locator lives only in the local
variable disk_path), so building the string raises AttributeError before any
rbd probe or qemu-img convert command can run. -/
def create_image (env : Env) (c : Config) (w : World) (vm_name : String) :
    World × List Event × Except PyError Config :=
  let r :=
    if c.img_file == none then
      let path := env.dataDir ++ "/" ++ vm_name ++ "_test.img"
      let cmd := "qemu-img create -f " ++ c.device_format ++ " " ++ path ++ " "
                   ++ c.storage_size
      (({ w with fs := fsWrite w.fs path "" } : World), [Event.runCmd cmd],
       { c with img_file := some path })
    else (w, ([] : List Event), c)
  (r.1, r.2.1, Except.error (PyError.attributeError "disk_path"))

/-- _update_vm (lines 175-209): dump the vm xml, build the disk XML and,
unless keep_raw_image_as, either hot-attach the device or add it to the
persisted document and sync. -/
def update_vm (c : Config) (w : World) (vm_name : String) :
    World × List Event × Except PyError Unit :=
  if !c.keep_raw_image_as then
    if c.hotplug then
      (w, [Event.dumpXml vm_name, Event.attachDevice vm_name c.attach_option],
       Except.ok ())
    else
      (w, [Event.dumpXml vm_name, Event.addDeviceSync vm_name], Except.ok ())
  else (w, [Event.dumpXml vm_name], Except.ok ())

/-- _cleanup_secret (lines 156-160): undefine the secret when the config
holds a truthy uuid. -/
def cleanup_secret (c : Config) (w : World) : World × List Event :=
  if truthy c.auth_sec_uuid then
    ({ w with secrets := w.secrets.filter (fun u => u != pyStr c.auth_sec_uuid) },
     [Event.secretUndefine (pyStr c.auth_sec_uuid)])
  else (w, [])

/-- The loop of _cleanup_files (lines 166-168): remove every listed file
that exists. -/
def removeExisting : List String → World → World × List Event
  | [], w => (w, [])
  | f :: rest, w =>
    if fsExists w.fs f then
      let r := removeExisting rest { w with fs := fsRemove w.fs f }
      (r.1, Event.removeFile f :: r.2)
    else removeExisting rest w

/-- _cleanup_files (lines 163-172): remove every listed file that exists,
then delete the local image only when the config marks it local, the path is
truthy and the file exists. -/
def cleanup_files (c : Config) (w : World) : World × List Event :=
  match c.img_file with
  | some f =>
      if c.is_local_img_file && (f != "")
          && fsExists (removeExisting w.cleanupList w).1.fs f then
        ({ (removeExisting w.cleanupList w).1 with
             fs := fsRemove (removeExisting w.cleanupList w).1.fs f },
         (removeExisting w.cleanupList w).2 ++ [Event.deleteLocalDisk "file" f])
      else removeExisting w.cleanupList w
  | none => removeExisting w.cleanupList w

/-- create_or_cleanup_ceph_backend_vm_disk (lines 128-153): dump the vm xml,
require ceph-common installation, build a fresh config, then run either the
setup sequence or the teardown sequence. -/
def create_or_cleanup_ceph_backend_vm_disk (env : Env) (w : World) (p : Params)
    (is_setup : Bool) : World × List Event × Except PyError Unit :=
  let ev0 := [Event.dumpXml env.vmName, Event.packageInstall ["ceph-common"]]
  if !env.installOk then
    (w, ev0, Except.error (PyError.testError "Failed to install ceph-common"))
  else
    let ri := Config.init env w p
    if is_setup then
      let ra := ri.2.2.define_auth_config_and_log env ri.1
      let rr := remove_image ra.2.2 ra.1
      match rr.2.2 with
      | Except.error e => (rr.1, ev0 ++ ri.2.1 ++ ra.2.1 ++ rr.2.1, Except.error e)
      | Except.ok _ =>
        let rc := create_image env ra.2.2 rr.1 env.vmName
        match rc.2.2 with
        | Except.error e =>
            (rc.1, ev0 ++ ri.2.1 ++ ra.2.1 ++ rr.2.1 ++ rc.2.1, Except.error e)
        | Except.ok cfg2 =>
            let ru := update_vm cfg2 rc.1 env.vmName
            (ru.1, ev0 ++ ri.2.1 ++ ra.2.1 ++ rr.2.1 ++ rc.2.1 ++ ru.2.1, ru.2.2)
    else
      let rr := remove_image ri.2.2 ri.1
      match rr.2.2 with
      | Except.error e => (rr.1, ev0 ++ ri.2.1 ++ rr.2.1, Except.error e)
      | Except.ok _ =>
        let rf := cleanup_files ri.2.2 rr.1
        let rs := cleanup_secret ri.2.2 rf.1
        (rs.1, ev0 ++ ri.2.1 ++ rr.2.1 ++ rf.2 ++ rs.2, Except.ok ())

/-- A concrete environment used to instantiate theorems. -/
def sampleEnv : Env :=
  { tmpDir := "/tmp", dataDir := "/var/data", cfgFilePath := "/etc/ceph/ceph.conf",
    installOk := true, secretUuid := "sec-uuid-1", vmName := "vm1" }

/-- A string without the separator splits into itself alone, as in Python. -/
lemma pySplit_no_sep (s : String) (c : Char) (h : c ∉ s.data) :
    pySplit s c = [s] := by
  have h2 : s.data.splitOnP (fun x => x == c) = [s.data] := by
    refine List.splitOnP_eq_single _ _ ?_
    intro x hx
    simp only [beq_iff_eq]
    intro hbe
    exact h (hbe ▸ hx)
  simp [pySplit, List.splitOn, h2]

/-- The file-removal loop emits only removeFile events. -/
lemma removeExisting_events (l : List String) (w : World) :
    ∀ e ∈ (removeExisting l w).2, ∃ f, e = Event.removeFile f := by
  induction l generalizing w with
  | nil => intro e he; simp [removeExisting] at he
  | cons f rest ih =>
    intro e he
    by_cases hex : fsExists w.fs f = true
    · simp only [removeExisting, hex, if_true] at he
      rcases List.mem_cons.mp he with h1 | h2
      · exact ⟨f, h1⟩
      · exact ih _ e h2
    · simp only [removeExisting, hex, if_false, Bool.false_eq_true] at he
      exact ih _ e he

/-- The file-removal loop leaves the defined secrets untouched. -/
lemma removeExisting_secrets (l : List String) (w : World) :
    (removeExisting l w).1.secrets = w.secrets := by
  induction l generalizing w with
  | nil => rfl
  | cons f rest ih =>
    by_cases hex : fsExists w.fs f = true
    · simp only [removeExisting, hex, if_true]
      exact ih _
    · simp only [removeExisting, hex, if_false, Bool.false_eq_true]
      exact ih _

/-- The file-removal loop leaves the cleanup list untouched. -/
lemma removeExisting_cleanupList (l : List String) (w : World) :
    (removeExisting l w).1.cleanupList = w.cleanupList := by
  induction l generalizing w with
  | nil => rfl
  | cons f rest ih =>
    by_cases hex : fsExists w.fs f = true
    · simp only [removeExisting, hex, if_true]
      exact ih _
    · simp only [removeExisting, hex, if_false, Bool.false_eq_true]
      exact ih _

/-- _cleanup_files emits only removeFile and deleteLocalDisk events. -/
lemma cleanup_files_events (c : Config) (w : World) :
    ∀ e ∈ (cleanup_files c w).2,
      (∃ f, e = Event.removeFile f) ∨ ∃ f, e = Event.deleteLocalDisk "file" f := by
  intro e he
  unfold cleanup_files at he
  cases himg : c.img_file with
  | none =>
    rw [himg] at he
    exact Or.inl (removeExisting_events _ _ e he)
  | some f =>
    rw [himg] at he
    simp only [] at he
    by_cases hg : (c.is_local_img_file && (f != "")
        && fsExists (removeExisting w.cleanupList w).1.fs f) = true
    · rw [if_pos hg] at he
      rcases List.mem_append.mp he with h1 | h2
      · exact Or.inl (removeExisting_events _ _ e h1)
      · rcases List.mem_singleton.mp h2 with h3
        exact Or.inr ⟨f, h3⟩
    · rw [if_neg hg] at he
      exact Or.inl (removeExisting_events _ _ e he)

/-- _cleanup_files leaves the defined secrets untouched. -/
lemma cleanup_files_secrets (c : Config) (w : World) :
    (cleanup_files c w).1.secrets = w.secrets := by
  unfold cleanup_files
  cases himg : c.img_file with
  | none => exact removeExisting_secrets _ _
  | some f =>
    simp only []
    by_cases hg : (c.is_local_img_file && (f != "")
        && fsExists (removeExisting w.cleanupList w).1.fs f) = true
    · rw [if_pos hg]
      exact removeExisting_secrets _ _
    · rw [if_neg hg]
      exact removeExisting_secrets _ _

/-- On a config whose is_local_img_file flag is tied to the absence of its
img_file — as every freshly constructed config is — the local-image deletion
guard of _cleanup_files is unsatisfiable. -/
lemma cleanup_files_not_local (c : Config) (w : World)
    (h : c.is_local_img_file = !truthy c.img_file) :
    cleanup_files c w = removeExisting w.cleanupList w := by
  unfold cleanup_files
  cases himg : c.img_file with
  | none => rfl
  | some f =>
    rw [h, himg]
    simp [truthy, Bool.and_assoc]

/-- _create_image always fails: the command interpolates the never-assigned
attribute disk_path. -/
lemma create_image_result (env : Env) (c : Config) (w : World) (v : String) :
    (create_image env c w v).2.2 = Except.error (PyError.attributeError "disk_path") := rfl

/-- _create_image leaves the defined secrets untouched. -/
lemma create_image_secrets (env : Env) (c : Config) (w : World) (v : String) :
    (create_image env c w v).1.secrets = w.secrets := by
  unfold create_image
  by_cases h : (c.img_file == none) = true <;> simp [h]

/-- _create_image emits at most the local qemu-img create command. -/
lemma create_image_events (env : Env) (c : Config) (w : World) (v : String) :
    (create_image env c w v).2.1 = []
    ∨ ∃ fmt path size, (create_image env c w v).2.1
        = [Event.runCmd ("qemu-img create -f " ++ fmt ++ " " ++ path ++ " " ++ size)] := by
  unfold create_image
  by_cases h : (c.img_file == none) = true
  · refine Or.inr ⟨c.device_format, env.dataDir ++ "/" ++ v ++ "_test.img",
        c.storage_size, ?_⟩
    simp [h]
  · exact Or.inl (by simp [h])

/-- _remove_image when the composite name splits into at least two parts. -/
lemma remove_image_ok (c : Config) (w : World) (pool image : String) (tl : List String)
    (h : pySplit c.ceph_disk_name '/' = pool :: image :: tl) :
    remove_image c w
      = (w, [Event.rbdImageRm c.ceph_mon_ip pool image c.rbd_key_file], Except.ok ()) := by
  simp [remove_image, h]

/-- _remove_image when the name has no separator: uncaught IndexError. -/
lemma remove_image_err (c : Config) (w : World)
    (h : pySplit c.ceph_disk_name '/' = [c.ceph_disk_name]) :
    remove_image c w = (w, [], Except.error PyError.indexError) := by
  simp [remove_image, h]

/-- _remove_image either raises IndexError without calling the collaborator,
or calls rbd_image_rm once and succeeds. -/
lemma remove_image_cases (c : Config) (w : World) :
    remove_image c w = (w, [], Except.error PyError.indexError)
    ∨ ∃ pool image, remove_image c w
        = (w, [Event.rbdImageRm c.ceph_mon_ip pool image c.rbd_key_file], Except.ok ()) := by
  unfold remove_image
  rcases h0 : (pySplit c.ceph_disk_name '/')[0]? with _ | pool
  · rcases h1 : (pySplit c.ceph_disk_name '/')[1]? with _ | image
    · exact Or.inl rfl
    · exact Or.inl rfl
  · rcases h1 : (pySplit c.ceph_disk_name '/')[1]? with _ | image
    · exact Or.inl rfl
    · exact Or.inr ⟨pool, image, rfl⟩

/-- _cleanup_secret does nothing on a config without a recorded secret uuid. -/
lemma cleanup_secret_none (c : Config) (w : World) (h : c.auth_sec_uuid = none) :
    cleanup_secret c w = (w, []) := by
  simp [cleanup_secret, h, truthy]

@[simp] lemma fsExists_fsWrite_self (fs : List (String × String)) (p c : String) :
    fsExists (fsWrite fs p c) p = true := by
  simp [fsExists, fsWrite]

@[simp] lemma fsRead_fsWrite_self (fs : List (String × String)) (p c : String) :
    fsRead (fsWrite fs p c) p = some c := by
  simp [fsRead, fsWrite]

lemma fsExists_fsWrite_mono (fs : List (String × String)) (p c q : String)
    (h : fsExists fs q = true) : fsExists (fsWrite fs p c) q = true := by
  by_cases hpq : p = q
  · subst hpq
    simp [fsExists, fsWrite]
  · rcases List.any_eq_true.mp h with ⟨e, he, hq⟩
    refine List.any_eq_true.mpr ⟨e, ?_, hq⟩
    rw [beq_iff_eq] at hq
    refine List.mem_cons_of_mem _ (List.mem_filter.mpr ⟨he, ?_⟩)
    rw [hq]
    simp [bne_iff_ne]
    exact Ne.symm hpq

@[simp] lemma create_config_file_cleanupList (env : Env) (w : World) (m : String) :
    (create_config_file env w m).1.cleanupList = w.cleanupList := by
  unfold create_config_file
  split <;> rfl

@[simp] lemma create_config_file_secrets (env : Env) (w : World) (m : String) :
    (create_config_file env w m).1.secrets = w.secrets := by
  unfold create_config_file
  split <;> rfl

@[simp] lemma create_config_file_events (env : Env) (w : World) (m : String) :
    (create_config_file env w m).2.1 = [Event.createConfigFile m env.cfgFilePath] := rfl

@[simp] lemma create_config_file_path (env : Env) (w : World) (m : String) :
    (create_config_file env w m).2.2 = env.cfgFilePath := rfl

lemma create_config_file_exists (env : Env) (w : World) (m : String) :
    fsExists (create_config_file env w m).1.fs env.cfgFilePath = true := by
  unfold create_config_file
  by_cases h : fsExists w.fs env.cfgFilePath = true <;> simp [h]

@[simp] lemma define_auth_key_cleanupList (c : Config) (w : World) :
    (c.define_auth_key w).1.cleanupList = w.cleanupList := by
  unfold Config.define_auth_key
  split <;> rfl

@[simp] lemma define_auth_key_secrets (c : Config) (w : World) :
    (c.define_auth_key w).1.secrets = w.secrets := by
  unfold Config.define_auth_key
  split <;> rfl

lemma define_auth_key_fs (c : Config) (w : World) :
    (c.define_auth_key w).1.fs
      = if c.is_auth_case = true
        then fsWrite w.fs c.key_file
               (authKeyContent (pyStr c.ceph_client_name) (pyStr c.ceph_client_key))
        else w.fs := by
  by_cases h : c.is_auth_case = true <;> simp [Config.define_auth_key, h]

lemma define_auth_key_events (c : Config) (w : World) :
    (c.define_auth_key w).2.1
      = if c.is_auth_case = true
        then [Event.writeFile c.key_file
                (authKeyContent (pyStr c.ceph_client_name) (pyStr c.ceph_client_key))]
        else [] := by
  by_cases h : c.is_auth_case = true <;> simp [Config.define_auth_key, h]

@[simp] lemma define_auth_key_disk_name (c : Config) (w : World) :
    (c.define_auth_key w).2.2.ceph_disk_name = c.ceph_disk_name := by
  unfold Config.define_auth_key
  split <;> rfl

@[simp] lemma define_auth_key_mon_ip (c : Config) (w : World) :
    (c.define_auth_key w).2.2.ceph_mon_ip = c.ceph_mon_ip := by
  unfold Config.define_auth_key
  split <;> rfl

@[simp] lemma define_auth_key_client_name (c : Config) (w : World) :
    (c.define_auth_key w).2.2.ceph_client_name = c.ceph_client_name := by
  unfold Config.define_auth_key
  split <;> rfl

@[simp] lemma define_auth_key_client_key (c : Config) (w : World) :
    (c.define_auth_key w).2.2.ceph_client_key = c.ceph_client_key := by
  unfold Config.define_auth_key
  split <;> rfl

@[simp] lemma define_auth_key_auth_user (c : Config) (w : World) :
    (c.define_auth_key w).2.2.ceph_auth_user = c.ceph_auth_user := by
  unfold Config.define_auth_key
  split <;> rfl

@[simp] lemma define_auth_key_auth_key (c : Config) (w : World) :
    (c.define_auth_key w).2.2.ceph_auth_key = c.ceph_auth_key := by
  unfold Config.define_auth_key
  split <;> rfl

@[simp] lemma define_auth_key_usage (c : Config) (w : World) :
    (c.define_auth_key w).2.2.auth_sec_usage_type = c.auth_sec_usage_type := by
  unfold Config.define_auth_key
  split <;> rfl

@[simp] lemma define_auth_key_img_file (c : Config) (w : World) :
    (c.define_auth_key w).2.2.img_file = c.img_file := by
  unfold Config.define_auth_key
  split <;> rfl

@[simp] lemma define_auth_key_is_local (c : Config) (w : World) :
    (c.define_auth_key w).2.2.is_local_img_file = c.is_local_img_file := by
  unfold Config.define_auth_key
  split <;> rfl

@[simp] lemma define_auth_key_keep_raw (c : Config) (w : World) :
    (c.define_auth_key w).2.2.keep_raw_image_as = c.keep_raw_image_as := by
  unfold Config.define_auth_key
  split <;> rfl

@[simp] lemma define_auth_key_hotplug (c : Config) (w : World) :
    (c.define_auth_key w).2.2.hotplug = c.hotplug := by
  unfold Config.define_auth_key
  split <;> rfl

@[simp] lemma define_auth_key_attach_option (c : Config) (w : World) :
    (c.define_auth_key w).2.2.attach_option = c.attach_option := by
  unfold Config.define_auth_key
  split <;> rfl

@[simp] lemma define_auth_key_auth_sec_uuid (c : Config) (w : World) :
    (c.define_auth_key w).2.2.auth_sec_uuid = c.auth_sec_uuid := by
  unfold Config.define_auth_key
  split <;> rfl

@[simp] lemma define_auth_key_disk_auth_dict (c : Config) (w : World) :
    (c.define_auth_key w).2.2.disk_auth_dict = c.disk_auth_dict := by
  unfold Config.define_auth_key
  split <;> rfl

@[simp] lemma define_auth_key_key_file (c : Config) (w : World) :
    (c.define_auth_key w).2.2.key_file = c.key_file := by
  unfold Config.define_auth_key
  split <;> rfl

@[simp] lemma define_auth_key_is_auth (c : Config) (w : World) :
    (c.define_auth_key w).2.2.is_auth_case = c.is_auth_case := by
  simp [Config.is_auth_case]

@[simp] lemma dacl_cleanupList (c : Config) (env : Env) (w : World) :
    (c.define_auth_config_and_log env w).1.cleanupList = w.cleanupList := by
  unfold Config.define_auth_config_and_log
  split <;> rfl

@[simp] lemma dacl_fs (c : Config) (env : Env) (w : World) :
    (c.define_auth_config_and_log env w).1.fs = w.fs := by
  unfold Config.define_auth_config_and_log
  split <;> rfl

lemma dacl_secrets (c : Config) (env : Env) (w : World) :
    (c.define_auth_config_and_log env w).1.secrets
      = w.secrets ++ (if c.is_auth_case = true then [env.secretUuid] else []) := by
  by_cases h : c.is_auth_case = true <;>
    simp [Config.define_auth_config_and_log, h]

lemma dacl_events (c : Config) (env : Env) (w : World) :
    (c.define_auth_config_and_log env w).2.1
      = if c.is_auth_case = true
        then [Event.createSecret c.auth_sec_usage_type "ceph_auth_secret" env.secretUuid,
              Event.secretSetValue env.secretUuid c.ceph_auth_key]
        else [] := by
  by_cases h : c.is_auth_case = true <;>
    simp [Config.define_auth_config_and_log, h]

@[simp] lemma dacl_disk_name (c : Config) (env : Env) (w : World) :
    (c.define_auth_config_and_log env w).2.2.ceph_disk_name = c.ceph_disk_name := by
  unfold Config.define_auth_config_and_log
  split <;> rfl

@[simp] lemma dacl_mon_ip (c : Config) (env : Env) (w : World) :
    (c.define_auth_config_and_log env w).2.2.ceph_mon_ip = c.ceph_mon_ip := by
  unfold Config.define_auth_config_and_log
  split <;> rfl

@[simp] lemma dacl_img_file (c : Config) (env : Env) (w : World) :
    (c.define_auth_config_and_log env w).2.2.img_file = c.img_file := by
  unfold Config.define_auth_config_and_log
  split <;> rfl

@[simp] lemma dacl_rbd_key_file (c : Config) (env : Env) (w : World) :
    (c.define_auth_config_and_log env w).2.2.rbd_key_file = c.rbd_key_file := by
  unfold Config.define_auth_config_and_log
  split <;> rfl

@[simp] lemma init_cleanupList (env : Env) (w : World) (p : Params) :
    (Config.init env w p).1.cleanupList
      = w.cleanupList ++ [env.tmpDir ++ "/ceph.key", env.cfgFilePath] := by
  simp [Config.init]

@[simp] lemma init_secrets (env : Env) (w : World) (p : Params) :
    (Config.init env w p).1.secrets = w.secrets := by
  simp [Config.init]

@[simp] lemma init_disk_name (env : Env) (w : World) (p : Params) :
    (Config.init env w p).2.2.ceph_disk_name
      = p.ceph_disk_name.getD "EXAMPLE_SOURCE_NAME" := by
  simp [Config.init]

@[simp] lemma init_mon_ip (env : Env) (w : World) (p : Params) :
    (Config.init env w p).2.2.ceph_mon_ip
      = p.ceph_mon_ip.getD "EXAMPLE_MON_HOST" := by
  simp [Config.init]

@[simp] lemma init_client_name (env : Env) (w : World) (p : Params) :
    (Config.init env w p).2.2.ceph_client_name = p.ceph_client_name := by
  simp [Config.init]

@[simp] lemma init_client_key (env : Env) (w : World) (p : Params) :
    (Config.init env w p).2.2.ceph_client_key = p.ceph_client_key := by
  simp [Config.init]

@[simp] lemma init_auth_user (env : Env) (w : World) (p : Params) :
    (Config.init env w p).2.2.ceph_auth_user = p.ceph_auth_user := by
  simp [Config.init]

@[simp] lemma init_auth_key (env : Env) (w : World) (p : Params) :
    (Config.init env w p).2.2.ceph_auth_key = p.ceph_auth_key := by
  simp [Config.init]

@[simp] lemma init_usage (env : Env) (w : World) (p : Params) :
    (Config.init env w p).2.2.auth_sec_usage_type
      = p.ceph_auth_sec_usage_type.getD "ceph" := by
  simp [Config.init]

@[simp] lemma init_img_file (env : Env) (w : World) (p : Params) :
    (Config.init env w p).2.2.img_file = p.ceph_image_file := by
  simp [Config.init]

@[simp] lemma init_is_local (env : Env) (w : World) (p : Params) :
    (Config.init env w p).2.2.is_local_img_file = !truthy p.ceph_image_file := by
  simp [Config.init]

@[simp] lemma init_keep_raw (env : Env) (w : World) (p : Params) :
    (Config.init env w p).2.2.keep_raw_image_as
      = (p.keep_raw_image_as.getD "no" == "yes") := by
  simp [Config.init]

@[simp] lemma init_hotplug (env : Env) (w : World) (p : Params) :
    (Config.init env w p).2.2.hotplug
      = (p.virt_disk_device_hotplug.getD "no" == "yes") := by
  simp [Config.init]

@[simp] lemma init_attach_option (env : Env) (w : World) (p : Params) :
    (Config.init env w p).2.2.attach_option
      = p.virt_device_attach_option.getD "--live" := by
  simp [Config.init]

@[simp] lemma init_auth_sec_uuid (env : Env) (w : World) (p : Params) :
    (Config.init env w p).2.2.auth_sec_uuid = none := by
  simp [Config.init]

@[simp] lemma init_disk_auth_dict (env : Env) (w : World) (p : Params) :
    (Config.init env w p).2.2.disk_auth_dict = none := by
  simp [Config.init]

@[simp] lemma init_key_file (env : Env) (w : World) (p : Params) :
    (Config.init env w p).2.2.key_file = env.tmpDir ++ "/ceph.key" := by
  simp [Config.init]

@[simp] lemma init_is_auth (env : Env) (w : World) (p : Params) :
    (Config.init env w p).2.2.is_auth_case
      = (truthy p.ceph_client_name && truthy p.ceph_client_key) := by
  simp [Config.is_auth_case]

/-- The constructor emits the config-file creation event and, in the auth
case, the key-file write. -/
lemma init_events (env : Env) (w : World) (p : Params) :
    (Config.init env w p).2.1
      = Event.createConfigFile (p.ceph_mon_ip.getD "EXAMPLE_MON_HOST") env.cfgFilePath
          :: (if (truthy p.ceph_client_name && truthy p.ceph_client_key) = true
              then [Event.writeFile (env.tmpDir ++ "/ceph.key")
                      (authKeyContent (pyStr p.ceph_client_name) (pyStr p.ceph_client_key))]
              else []) := by
  by_cases h : (truthy p.ceph_client_name && truthy p.ceph_client_key) = true <;>
    simp [Config.init, define_auth_key_events, Config.is_auth_case, h]

/-- After the constructor, the cluster config file exists. -/
lemma init_cfg_file_exists (env : Env) (w : World) (p : Params) :
    fsExists (Config.init env w p).1.fs env.cfgFilePath = true := by
  by_cases h : (truthy p.ceph_client_name && truthy p.ceph_client_key) = true <;>
    simp only [Config.init, define_auth_key_fs, init_is_auth, Config.is_auth_case]
  · rw [if_pos]
    · exact fsExists_fsWrite_mono _ _ _ _ (create_config_file_exists env _ _)
    · simpa [Config.is_auth_case] using h
  · rw [if_neg]
    · exact create_config_file_exists env _ _
    · simpa [Config.is_auth_case] using h

/-- After the constructor, in the auth case, the key file holds the auth
key content. -/
lemma init_key_file_content (env : Env) (w : World) (p : Params)
    (h : (truthy p.ceph_client_name && truthy p.ceph_client_key) = true) :
    fsRead (Config.init env w p).1.fs (env.tmpDir ++ "/ceph.key")
      = some (authKeyContent (pyStr p.ceph_client_name) (pyStr p.ceph_client_key)) := by
  simp only [Config.init, define_auth_key_fs]
  rw [if_pos]
  · exact fsRead_fsWrite_self _ _ _
  · simpa [Config.is_auth_case] using h

lemma dacl_disk_auth_dict (c : Config) (env : Env) (w : World) :
    (c.define_auth_config_and_log env w).2.2.disk_auth_dict
      = if c.is_auth_case = true
        then some { auth_user := c.ceph_auth_user,
                    secret_type := c.auth_sec_usage_type,
                    secret_uuid := env.secretUuid }
        else c.disk_auth_dict := by
  by_cases h : c.is_auth_case = true <;>
    simp [Config.define_auth_config_and_log, h]

/-- When package installation fails, the call aborts at once with TestError
and nothing else happens, on setup and teardown alike. -/
lemma main_install_fail (env : Env) (w : World) (p : Params) (b : Bool)
    (h : env.installOk = false) :
    create_or_cleanup_ceph_backend_vm_disk env w p b
      = (w, [Event.dumpXml env.vmName, Event.packageInstall ["ceph-common"]],
         Except.error (PyError.testError "Failed to install ceph-common")) := by
  simp [create_or_cleanup_ceph_backend_vm_disk, h]

/-- Every setup call ends in the AttributeError raised while _create_image
formats its shell command, provided the earlier image-removal indexing does
not fail first. -/
lemma setup_result (env : Env) (w : World) (p : Params)
    (hin : env.installOk = true) (pool image : String) (tl : List String)
    (hsplit : pySplit (p.ceph_disk_name.getD "EXAMPLE_SOURCE_NAME") '/'
        = pool :: image :: tl) :
    (create_or_cleanup_ceph_backend_vm_disk env w p true).2.2
      = Except.error (PyError.attributeError "disk_path") := by
  have hd : pySplit ((Config.init env w p).2.2.define_auth_config_and_log env
      (Config.init env w p).1).2.2.ceph_disk_name '/' = pool :: image :: tl := by
    rw [dacl_disk_name, init_disk_name]
    exact hsplit
  have hrm := remove_image_ok _ ((Config.init env w p).2.2.define_auth_config_and_log env
      (Config.init env w p).1).1 pool image tl hd
  simp [create_or_cleanup_ceph_backend_vm_disk, hin, hrm, create_image_result]

/-- The world of defined secrets after a setup call: the secret created in
the auth case is recorded, nothing else changes (the later AttributeError
does not undo it). -/
lemma setup_secrets (env : Env) (w : World) (p : Params)
    (hin : env.installOk = true) :
    (create_or_cleanup_ceph_backend_vm_disk env w p true).1.secrets
      = w.secrets ++ (if (truthy p.ceph_client_name && truthy p.ceph_client_key) = true
                      then [env.secretUuid] else []) := by
  rcases remove_image_cases ((Config.init env w p).2.2.define_auth_config_and_log env
      (Config.init env w p).1).2.2 ((Config.init env w p).2.2.define_auth_config_and_log env
      (Config.init env w p).1).1 with h | ⟨po, im, h⟩
  · simp [create_or_cleanup_ceph_backend_vm_disk, hin, h, dacl_secrets]
  · simp [create_or_cleanup_ceph_backend_vm_disk, hin, h, create_image_result,
          create_image_secrets, dacl_secrets]

/-- The setup trace decomposes into the fixed prefix (xml dump, package
install, constructor events, auth events) followed only by image-removal
and local-image-creation commands. -/
lemma setup_events_decomp (env : Env) (w : World) (p : Params)
    (hin : env.installOk = true) :
    ∃ rest : List Event,
      (create_or_cleanup_ceph_backend_vm_disk env w p true).2.1
        = [Event.dumpXml env.vmName, Event.packageInstall ["ceph-common"]]
            ++ (Config.init env w p).2.1
            ++ ((Config.init env w p).2.2.define_auth_config_and_log env
                  (Config.init env w p).1).2.1
            ++ rest
      ∧ ∀ e ∈ rest, (∃ m po im kf, e = Event.rbdImageRm m po im kf)
          ∨ ∃ fmt path size,
              e = Event.runCmd ("qemu-img create -f " ++ fmt ++ " " ++ path ++ " " ++ size) := by
  rcases remove_image_cases ((Config.init env w p).2.2.define_auth_config_and_log env
      (Config.init env w p).1).2.2 ((Config.init env w p).2.2.define_auth_config_and_log env
      (Config.init env w p).1).1 with h | ⟨po, im, h⟩
  · refine ⟨[], ?_, by simp⟩
    simp [create_or_cleanup_ceph_backend_vm_disk, hin, h]
  · rcases create_image_events env ((Config.init env w p).2.2.define_auth_config_and_log env
        (Config.init env w p).1).2.2 (((Config.init env w p).2.2.define_auth_config_and_log env
        (Config.init env w p).1).1) env.vmName with hc | ⟨fmt, path, size, hc⟩
    · refine ⟨[Event.rbdImageRm ((Config.init env w p).2.2.define_auth_config_and_log env
          (Config.init env w p).1).2.2.ceph_mon_ip po im
          ((Config.init env w p).2.2.define_auth_config_and_log env
          (Config.init env w p).1).2.2.rbd_key_file], ?_, ?_⟩
      · simp [create_or_cleanup_ceph_backend_vm_disk, hin, h, create_image_result, hc]
      · intro e he
        rcases List.mem_singleton.mp he with h1
        exact Or.inl ⟨_, _, _, _, h1⟩
    · refine ⟨[Event.rbdImageRm ((Config.init env w p).2.2.define_auth_config_and_log env
          (Config.init env w p).1).2.2.ceph_mon_ip po im
          ((Config.init env w p).2.2.define_auth_config_and_log env
          (Config.init env w p).1).2.2.rbd_key_file,
          Event.runCmd ("qemu-img create -f " ++ fmt ++ " " ++ path ++ " " ++ size)], ?_, ?_⟩
      · simp [create_or_cleanup_ceph_backend_vm_disk, hin, h, create_image_result, hc]
      · intro e he
        rcases List.mem_cons.mp he with h1 | h2
        · exact Or.inl ⟨_, _, _, _, h1⟩
        · rcases List.mem_singleton.mp h2 with h3
          exact Or.inr ⟨fmt, path, size, h3⟩

/-- A teardown call, when the composite name splits, decomposes into the
constructor effects, one rbd_image_rm call, and the file cleanup; the secret
cleanup contributes nothing because the fresh config has no recorded uuid. -/
lemma teardown_decomp (env : Env) (w : World) (p : Params)
    (hin : env.installOk = true) (pool image : String) (tl : List String)
    (hsplit : pySplit (p.ceph_disk_name.getD "EXAMPLE_SOURCE_NAME") '/'
        = pool :: image :: tl) :
    create_or_cleanup_ceph_backend_vm_disk env w p false
      = ((cleanup_files (Config.init env w p).2.2 (Config.init env w p).1).1,
         [Event.dumpXml env.vmName, Event.packageInstall ["ceph-common"]]
           ++ (Config.init env w p).2.1
           ++ [Event.rbdImageRm (p.ceph_mon_ip.getD "EXAMPLE_MON_HOST") pool image
                 (Config.init env w p).2.2.rbd_key_file]
           ++ (cleanup_files (Config.init env w p).2.2 (Config.init env w p).1).2,
         Except.ok ()) := by
  have hd : pySplit (Config.init env w p).2.2.ceph_disk_name '/'
      = pool :: image :: tl := by
    rw [init_disk_name]
    exact hsplit
  have hrm := remove_image_ok (Config.init env w p).2.2 (Config.init env w p).1
      pool image tl hd
  simp [create_or_cleanup_ceph_backend_vm_disk, hin, hrm,
        cleanup_secret_none _ _ (init_auth_sec_uuid env w p)]

/-- Teardown leaves the defined secrets exactly as they were. -/
lemma teardown_secrets (env : Env) (w : World) (p : Params) :
    (create_or_cleanup_ceph_backend_vm_disk env w p false).1.secrets = w.secrets := by
  by_cases hin : env.installOk = true
  · rcases remove_image_cases (Config.init env w p).2.2 (Config.init env w p).1
        with h | ⟨po, im, h⟩
    · simp [create_or_cleanup_ceph_backend_vm_disk, hin, h]
    · simp [create_or_cleanup_ceph_backend_vm_disk, hin, h,
            cleanup_secret_none _ _ (init_auth_sec_uuid env w p),
            cleanup_files_secrets]
  · rw [main_install_fail env w p false (by simpa using hin)]

/-- The events of the constructor are the config-file creation and at most
a key-file write. -/
lemma init_events_shape (env : Env) (w : World) (p : Params) :
    ∀ e ∈ (Config.init env w p).2.1,
      (∃ m pa, e = Event.createConfigFile m pa)
      ∨ ∃ pa ct, e = Event.writeFile pa ct := by
  intro e he
  rw [init_events] at he
  rcases List.mem_cons.mp he with h1 | h1
  · exact Or.inl ⟨_, _, h1⟩
  · by_cases hauth : (truthy p.ceph_client_name && truthy p.ceph_client_key) = true
    · rw [if_pos hauth] at h1
      rcases List.mem_singleton.mp h1 with h2
      exact Or.inr ⟨_, _, h2⟩
    · rw [if_neg hauth] at h1
      exact absurd h1 (List.not_mem_nil e)

/-- The events of define_auth_config_and_log are at most the secret creation
and its value assignment. -/
lemma dacl_events_shape (c : Config) (env : Env) (w : World) :
    ∀ e ∈ (c.define_auth_config_and_log env w).2.1,
      (∃ us n uu, e = Event.createSecret us n uu)
      ∨ ∃ uu v, e = Event.secretSetValue uu v := by
  intro e he
  rw [dacl_events] at he
  by_cases h : c.is_auth_case = true
  · rw [if_pos h] at he
    rcases List.mem_cons.mp he with h1 | h1
    · exact Or.inl ⟨_, _, _, h1⟩
    · rcases List.mem_singleton.mp h1 with h2
      exact Or.inr ⟨_, _, h2⟩
  · rw [if_neg h] at he
    exact absurd he (List.not_mem_nil e)

/-- The teardown trace decomposes into the fixed prefix (xml dump, package
install, constructor events) followed only by the rbd removal call and file
removals: the local-image deletion guard of _cleanup_files is unsatisfiable
on a fresh config, so no deleteLocalDisk event can occur. -/
lemma teardown_events_decomp (env : Env) (w : World) (p : Params)
    (hin : env.installOk = true) :
    ∃ rest : List Event,
      (create_or_cleanup_ceph_backend_vm_disk env w p false).2.1
        = [Event.dumpXml env.vmName, Event.packageInstall ["ceph-common"]]
            ++ (Config.init env w p).2.1 ++ rest
      ∧ ∀ e ∈ rest, (∃ m po im kf, e = Event.rbdImageRm m po im kf)
          ∨ ∃ f, e = Event.removeFile f := by
  have hnl : cleanup_files (Config.init env w p).2.2 (Config.init env w p).1
      = removeExisting (Config.init env w p).1.cleanupList (Config.init env w p).1 := by
    refine cleanup_files_not_local _ _ ?_
    rw [init_is_local, init_img_file]
  rcases remove_image_cases (Config.init env w p).2.2 (Config.init env w p).1
      with h | ⟨po, im, h⟩
  · refine ⟨[], ?_, by simp⟩
    simp [create_or_cleanup_ceph_backend_vm_disk, hin, h]
  · refine ⟨Event.rbdImageRm (p.ceph_mon_ip.getD "EXAMPLE_MON_HOST") po im
        (Config.init env w p).2.2.rbd_key_file
        :: (removeExisting (Config.init env w p).1.cleanupList (Config.init env w p).1).2,
        ?_, ?_⟩
    · simp [create_or_cleanup_ceph_backend_vm_disk, hin, h, hnl,
            cleanup_secret_none _ _ (init_auth_sec_uuid env w p)]
    · intro e he
      rcases List.mem_cons.mp he with h1 | h1
      · exact Or.inl ⟨_, _, _, _, h1⟩
      · exact Or.inr (removeExisting_events _ _ e h1)

/-- Every event of a teardown call is an xml dump, a package install, a
config-file creation, a key-file write, one rbd_image_rm call, or a file
removal: in particular teardown never undefines a secret and never deletes
a local image. -/
lemma teardown_events_shape (env : Env) (w : World) (p : Params) :
    ∀ e ∈ (create_or_cleanup_ceph_backend_vm_disk env w p false).2.1,
      (∃ v, e = Event.dumpXml v) ∨ (∃ l, e = Event.packageInstall l)
      ∨ (∃ m pa, e = Event.createConfigFile m pa)
      ∨ (∃ pa ct, e = Event.writeFile pa ct)
      ∨ (∃ m po im kf, e = Event.rbdImageRm m po im kf)
      ∨ (∃ f, e = Event.removeFile f) := by
  intro e he
  by_cases hin : env.installOk = true
  · rcases teardown_events_decomp env w p hin with ⟨rest, hEq, hShape⟩
    rw [hEq] at he
    rcases List.mem_append.mp he with h1 | h1
    · rcases List.mem_append.mp h1 with h2 | h2
      · rcases List.mem_cons.mp h2 with h3 | h3
        · exact Or.inl ⟨_, h3⟩
        · rcases List.mem_singleton.mp h3 with h4
          exact Or.inr (Or.inl ⟨_, h4⟩)
      · rcases init_events_shape env w p e h2 with ⟨m, pa, h3⟩ | ⟨pa, ct, h3⟩
        · exact Or.inr (Or.inr (Or.inl ⟨m, pa, h3⟩))
        · exact Or.inr (Or.inr (Or.inr (Or.inl ⟨pa, ct, h3⟩)))
    · rcases hShape e h1 with ⟨m, po, im, kf, h3⟩ | ⟨f, h3⟩
      · exact Or.inr (Or.inr (Or.inr (Or.inr (Or.inl ⟨m, po, im, kf, h3⟩))))
      · exact Or.inr (Or.inr (Or.inr (Or.inr (Or.inr ⟨f, h3⟩))))
  · rw [main_install_fail env w p false (by simpa using hin)] at he
    rcases List.mem_cons.mp he with h1 | h1
    · exact Or.inl ⟨_, h1⟩
    · rcases List.mem_singleton.mp h1 with h2
      exact Or.inr (Or.inl ⟨_, h2⟩)

/-- Every event of a setup call belongs to the pre-conversion repertoire:
in particular no device attach and no persisted-document mutation occurs. -/
lemma setup_events_shape (env : Env) (w : World) (p : Params) :
    ∀ e ∈ (create_or_cleanup_ceph_backend_vm_disk env w p true).2.1,
      (∃ v, e = Event.dumpXml v) ∨ (∃ l, e = Event.packageInstall l)
      ∨ (∃ m pa, e = Event.createConfigFile m pa)
      ∨ (∃ pa ct, e = Event.writeFile pa ct)
      ∨ (∃ us n uu, e = Event.createSecret us n uu)
      ∨ (∃ uu v, e = Event.secretSetValue uu v)
      ∨ (∃ m po im kf, e = Event.rbdImageRm m po im kf)
      ∨ (∃ s, e = Event.runCmd s) := by
  intro e he
  by_cases hin : env.installOk = true
  · rcases setup_events_decomp env w p hin with ⟨rest, hEq, hShape⟩
    rw [hEq] at he
    rcases List.mem_append.mp he with h1 | h1
    · rcases List.mem_append.mp h1 with h2 | h2
      · rcases List.mem_append.mp h2 with h3 | h3
        · rcases List.mem_cons.mp h3 with h4 | h4
          · exact Or.inl ⟨_, h4⟩
          · rcases List.mem_singleton.mp h4 with h5
            exact Or.inr (Or.inl ⟨_, h5⟩)
        · rcases init_events_shape env w p e h3 with ⟨m, pa, h4⟩ | ⟨pa, ct, h4⟩
          · exact Or.inr (Or.inr (Or.inl ⟨m, pa, h4⟩))
          · exact Or.inr (Or.inr (Or.inr (Or.inl ⟨pa, ct, h4⟩)))
      · rcases dacl_events_shape _ env _ e h2 with ⟨us, n, uu, h4⟩ | ⟨uu, v, h4⟩
        · exact Or.inr (Or.inr (Or.inr (Or.inr (Or.inl ⟨us, n, uu, h4⟩))))
        · exact Or.inr (Or.inr (Or.inr (Or.inr (Or.inr (Or.inl ⟨uu, v, h4⟩)))))
    · rcases hShape e h1 with ⟨m, po, im, kf, h4⟩ | ⟨fmt, path, size, h4⟩
      · exact Or.inr (Or.inr (Or.inr (Or.inr (Or.inr (Or.inr (Or.inl ⟨m, po, im, kf, h4⟩))))))
      · exact Or.inr (Or.inr (Or.inr (Or.inr (Or.inr (Or.inr (Or.inr ⟨_, h4⟩))))))
  · rw [main_install_fail env w p true (by simpa using hin)] at he
    rcases List.mem_cons.mp he with h1 | h1
    · exact Or.inl ⟨_, h1⟩
    · rcases List.mem_singleton.mp h1 with h2
      exact Or.inr (Or.inl ⟨_, h2⟩)

/-- Without both credentials, the whole auth path is skipped across the full
setup call: no file write, no secret creation, no secret value assignment. -/
lemma setup_no_auth_events (env : Env) (w : World) (p : Params)
    (hnauth : (truthy p.ceph_client_name && truthy p.ceph_client_key) = false) :
    ∀ e ∈ (create_or_cleanup_ceph_backend_vm_disk env w p true).2.1,
      (∃ v, e = Event.dumpXml v) ∨ (∃ l, e = Event.packageInstall l)
      ∨ (∃ m pa, e = Event.createConfigFile m pa)
      ∨ (∃ m po im kf, e = Event.rbdImageRm m po im kf)
      ∨ (∃ s, e = Event.runCmd s) := by
  intro e he
  by_cases hin : env.installOk = true
  · rcases setup_events_decomp env w p hin with ⟨rest, hEq, hShape⟩
    rw [hEq] at he
    rcases List.mem_append.mp he with h1 | h1
    · rcases List.mem_append.mp h1 with h2 | h2
      · rcases List.mem_append.mp h2 with h3 | h3
        · rcases List.mem_cons.mp h3 with h4 | h4
          · exact Or.inl ⟨_, h4⟩
          · rcases List.mem_singleton.mp h4 with h5
            exact Or.inr (Or.inl ⟨_, h5⟩)
        · rw [init_events, if_neg (by simp [hnauth])] at h3
          rcases List.mem_singleton.mp h3 with h4
          exact Or.inr (Or.inr (Or.inl ⟨_, _, h4⟩))
      · rw [dacl_events, if_neg (by simp [init_is_auth, hnauth])] at h2
        exact absurd h2 (List.not_mem_nil e)
    · rcases hShape e h1 with ⟨m, po, im, kf, h4⟩ | ⟨fmt, path, size, h4⟩
      · exact Or.inr (Or.inr (Or.inr (Or.inl ⟨m, po, im, kf, h4⟩)))
      · exact Or.inr (Or.inr (Or.inr (Or.inr ⟨_, h4⟩)))
  · rw [main_install_fail env w p true (by simpa using hin)] at he
    rcases List.mem_cons.mp he with h1 | h1
    · exact Or.inl ⟨_, h1⟩
    · rcases List.mem_singleton.mp h1 with h2
      exact Or.inr (Or.inl ⟨_, h2⟩)

/-- Concrete parameters used by witnesses: auth credentials, a composite
disk name, no caller-supplied image path. -/
def sampleParams : Params :=
  { ceph_disk_name := some "rbd_pool/rbd_img",
    ceph_client_name := some "client.admin",
    ceph_client_key := some "AQAKEY",
    ceph_auth_user := some "admin",
    ceph_auth_key := some "AQAKEY" }

/-- C1: contrary to the claim, the image-conversion step never runs its
probe-or-convert shell command: line 241 of _create_image interpolates
cfg.disk_path, an attribute _Config never assigns (the locator lives in the
local variable disk_path), so every setup call whose composite name splits
ends in AttributeError instead, and the only shell command a setup call can
ever run is the local qemu-img create of the scratch image. -/
theorem C1_conversion_step_raises_attribute_error (env : Env) (w : World) (p : Params)
    (hin : env.installOk = true) (pool image : String) (tl : List String)
    (hsplit : pySplit (p.ceph_disk_name.getD "EXAMPLE_SOURCE_NAME") '/'
        = pool :: image :: tl) :
    (create_or_cleanup_ceph_backend_vm_disk env w p true).2.2
      = Except.error (PyError.attributeError "disk_path")
    ∧ ∀ s, Event.runCmd s ∈ (create_or_cleanup_ceph_backend_vm_disk env w p true).2.1
        → ∃ fmt path size, s = "qemu-img create -f " ++ fmt ++ " " ++ path ++ " " ++ size := by
  refine ⟨setup_result env w p hin pool image tl hsplit, ?_⟩
  intro s hs
  rcases setup_events_decomp env w p hin with ⟨rest, hEq, hShape⟩
  rw [hEq] at hs
  rcases List.mem_append.mp hs with h1 | h1
  · rcases List.mem_append.mp h1 with h2 | h2
    · rcases List.mem_append.mp h2 with h3 | h3
      · rcases List.mem_cons.mp h3 with h4 | h4
        · exact absurd h4 (by simp)
        · rcases List.mem_singleton.mp h4 with h5
          exact absurd h5 (by simp)
      · rcases init_events_shape env w p _ h3 with ⟨m, pa, h4⟩ | ⟨pa, ct, h4⟩ <;>
          exact absurd h4 (by simp)
    · rcases dacl_events_shape _ env _ _ h2 with ⟨us, n, uu, h4⟩ | ⟨uu, v, h4⟩ <;>
        exact absurd h4 (by simp)
  · rcases hShape _ h1 with ⟨m, po, im, kf, h4⟩ | ⟨fmt, path, size, h4⟩
    · exact absurd h4 (by simp)
    · exact ⟨fmt, path, size, Event.runCmd.inj h4⟩

/-- C1 witness: a concrete setup call ends in the AttributeError. -/
theorem C1_conversion_step_raises_attribute_error_witness :
    (create_or_cleanup_ceph_backend_vm_disk sampleEnv initWorld sampleParams true).2.2
      = Except.error (PyError.attributeError "disk_path") :=
  (C1_conversion_step_raises_attribute_error sampleEnv initWorld sampleParams rfl
    "rbd_pool" "rbd_img" [] (by decide)).1

/-- C3: the caller-supplied half of the claim holds, but the synthesized
half fails: a teardown call never emits a local-image deletion at all,
because the fresh config it builds ties is_local_img_file to the absence of
img_file, making the deletion guard of _cleanup_files unsatisfiable; the
second conjunct shows concretely that the scratch image synthesized by a
setup call still exists after the subsequent teardown. -/
theorem C3_teardown_never_deletes_local_image (env : Env) (w : World) (p : Params)
    (dt f : String) :
    Event.deleteLocalDisk dt f
      ∉ (create_or_cleanup_ceph_backend_vm_disk env w p false).2.1
    ∧ fsExists (create_or_cleanup_ceph_backend_vm_disk sampleEnv
          (create_or_cleanup_ceph_backend_vm_disk sampleEnv initWorld sampleParams true).1
          sampleParams false).1.fs "/var/data/vm1_test.img" = true := by
  refine ⟨?_, by decide⟩
  intro hmem
  rcases teardown_events_shape env w p _ hmem with
    ⟨v, h⟩ | ⟨l, h⟩ | ⟨m, pa, h⟩ | ⟨pa, ct, h⟩ | ⟨m, po, im, kf, h⟩ | ⟨g, h⟩ <;>
    exact Event.noConfusion h

/-- C3 witness at a concrete input. -/
theorem C3_teardown_never_deletes_local_image_witness :
    Event.deleteLocalDisk "file" "/var/data/vm1_test.img"
      ∉ (create_or_cleanup_ceph_backend_vm_disk sampleEnv initWorld sampleParams false).2.1 :=
  (C3_teardown_never_deletes_local_image sampleEnv initWorld sampleParams
    "file" "/var/data/vm1_test.img").1

/-- C7: a disk name without the separator crashes _remove_image with an
uncaught IndexError (element 1 of the one-part split does not exist), on
setup and teardown alike; no error is reported through the test-error
channel. -/
theorem C7_no_separator_is_index_error (env : Env) (w : World) (p : Params)
    (s : String) (hd : p.ceph_disk_name = some s)
    (hsep : ('/' : Char) ∉ s.data) (hin : env.installOk = true) (b : Bool) :
    (create_or_cleanup_ceph_backend_vm_disk env w p b).2.2
      = Except.error PyError.indexError := by
  have hcd : (Config.init env w p).2.2.ceph_disk_name = s := by
    rw [init_disk_name, hd]
    rfl
  cases b
  · have h := remove_image_err (Config.init env w p).2.2 (Config.init env w p).1
      (by rw [hcd]; exact pySplit_no_sep s '/' hsep)
    simp [create_or_cleanup_ceph_backend_vm_disk, hin, h]
  · have hcd2 : ((Config.init env w p).2.2.define_auth_config_and_log env
        (Config.init env w p).1).2.2.ceph_disk_name = s := by
      rw [dacl_disk_name, init_disk_name, hd]
      rfl
    have h := remove_image_err ((Config.init env w p).2.2.define_auth_config_and_log env
        (Config.init env w p).1).2.2 ((Config.init env w p).2.2.define_auth_config_and_log env
        (Config.init env w p).1).1
      (by rw [hcd2]; exact pySplit_no_sep s '/' hsep)
    simp [create_or_cleanup_ceph_backend_vm_disk, hin, h]

/-- C7 witness: the default placeholder disk name has no separator and
teardown ends in IndexError. -/
theorem C7_no_separator_is_index_error_witness :
    (create_or_cleanup_ceph_backend_vm_disk sampleEnv initWorld
        { ceph_disk_name := some "EXAMPLE_SOURCE_NAME" } false).2.2
      = Except.error PyError.indexError :=
  C7_no_separator_is_index_error sampleEnv initWorld _ "EXAMPLE_SOURCE_NAME" rfl
    (by decide) rfl false

/-- C9: every call, setup or teardown alike, requires the ceph-common
installation first; when it fails the call raises TestError with the quoted
message before performing any setup or cleanup step: the trace holds only
the xml dump and the attempted install, and the world is untouched. -/
theorem C9_install_gate_on_both_paths (env : Env) (w : World) (p : Params)
    (b : Bool) (h : env.installOk = false) :
    (create_or_cleanup_ceph_backend_vm_disk env w p b).2.2
      = Except.error (PyError.testError "Failed to install ceph-common")
    ∧ (create_or_cleanup_ceph_backend_vm_disk env w p b).2.1
      = [Event.dumpXml env.vmName, Event.packageInstall ["ceph-common"]]
    ∧ (create_or_cleanup_ceph_backend_vm_disk env w p b).1 = w := by
  rw [main_install_fail env w p b h]
  exact ⟨rfl, rfl, rfl⟩

/-- C9 witness: a concrete teardown call with failing installation. -/
theorem C9_install_gate_on_both_paths_witness :
    (create_or_cleanup_ceph_backend_vm_disk { sampleEnv with installOk := false }
        initWorld sampleParams false).2.2
      = Except.error (PyError.testError "Failed to install ceph-common") :=
  (C9_install_gate_on_both_paths { sampleEnv with installOk := false }
    initWorld sampleParams false rfl).1

/-- C2: the temporary-files half of the claim holds, but the secret half
fails on the code: in the auth case setup creates and records the secret,
while the subsequent teardown call builds a fresh config whose
auth_sec_uuid is None, so it undefines nothing and the secret identifier
dangles in the world after teardown. -/
theorem C2_teardown_leaves_secret_dangling (env : Env) (w : World) (p : Params)
    (hin : env.installOk = true)
    (hauth : (truthy p.ceph_client_name && truthy p.ceph_client_key) = true) :
    Event.createSecret (p.ceph_auth_sec_usage_type.getD "ceph") "ceph_auth_secret"
        env.secretUuid ∈ (create_or_cleanup_ceph_backend_vm_disk env w p true).2.1
    ∧ (create_or_cleanup_ceph_backend_vm_disk env w p true).1.secrets
        = w.secrets ++ [env.secretUuid]
    ∧ (∀ u, Event.secretUndefine u ∉
        (create_or_cleanup_ceph_backend_vm_disk env
          (create_or_cleanup_ceph_backend_vm_disk env w p true).1 p false).2.1)
    ∧ (create_or_cleanup_ceph_backend_vm_disk env
          (create_or_cleanup_ceph_backend_vm_disk env w p true).1 p false).1.secrets
        = w.secrets ++ [env.secretUuid] := by
  refine ⟨?_, ?_, ?_, ?_⟩
  · rcases setup_events_decomp env w p hin with ⟨rest, hEq, hShape⟩
    rw [hEq]
    refine List.mem_append.mpr (Or.inl (List.mem_append.mpr (Or.inr ?_)))
    rw [dacl_events, init_is_auth, if_pos hauth, init_usage]
    exact List.mem_cons_self _ _
  · rw [setup_secrets env w p hin, if_pos hauth]
  · intro u hmem2
    rcases teardown_events_shape env _ p _ hmem2 with
      ⟨v, h⟩ | ⟨l, h⟩ | ⟨m, pa, h⟩ | ⟨pa, ct, h⟩ | ⟨m, po, im, kf, h⟩ | ⟨g, h⟩ <;>
      exact Event.noConfusion h
  · rw [teardown_secrets env _ p, setup_secrets env w p hin, if_pos hauth]

/-- C2 witness: the concrete auth secret is still defined after the
teardown that follows setup. -/
theorem C2_teardown_leaves_secret_dangling_witness :
    (create_or_cleanup_ceph_backend_vm_disk sampleEnv
        (create_or_cleanup_ceph_backend_vm_disk sampleEnv initWorld sampleParams true).1
        sampleParams false).1.secrets = initWorld.secrets ++ ["sec-uuid-1"] :=
  (C2_teardown_leaves_secret_dangling sampleEnv initWorld sampleParams rfl
    (by decide)).2.2.2

/-- C4: the auth path is all-or-nothing: with either credential absent the
whole setup call writes no file and creates, sets or references no secret
(the disk auth block stays None); with both present the key file is written
from the client credentials, the secret is created and given the auth key
as its value, and the disk auth block holds the auth user, the usage type
and the created secret uuid. -/
theorem C4_auth_all_or_nothing (env : Env) (w : World) (p : Params) :
    ((truthy p.ceph_client_name && truthy p.ceph_client_key) = false →
       (∀ pa ct, Event.writeFile pa ct
           ∉ (create_or_cleanup_ceph_backend_vm_disk env w p true).2.1)
       ∧ (∀ us n uu, Event.createSecret us n uu
           ∉ (create_or_cleanup_ceph_backend_vm_disk env w p true).2.1)
       ∧ (∀ uu v, Event.secretSetValue uu v
           ∉ (create_or_cleanup_ceph_backend_vm_disk env w p true).2.1)
       ∧ ((Config.init env w p).2.2.define_auth_config_and_log env
            (Config.init env w p).1).2.2.disk_auth_dict = none)
    ∧ ((truthy p.ceph_client_name && truthy p.ceph_client_key) = true →
       env.installOk = true →
       Event.writeFile (env.tmpDir ++ "/ceph.key")
           (authKeyContent (pyStr p.ceph_client_name) (pyStr p.ceph_client_key))
         ∈ (create_or_cleanup_ceph_backend_vm_disk env w p true).2.1
       ∧ Event.createSecret (p.ceph_auth_sec_usage_type.getD "ceph") "ceph_auth_secret"
           env.secretUuid ∈ (create_or_cleanup_ceph_backend_vm_disk env w p true).2.1
       ∧ Event.secretSetValue env.secretUuid p.ceph_auth_key
           ∈ (create_or_cleanup_ceph_backend_vm_disk env w p true).2.1
       ∧ ((Config.init env w p).2.2.define_auth_config_and_log env
            (Config.init env w p).1).2.2.disk_auth_dict
          = some { auth_user := p.ceph_auth_user,
                   secret_type := p.ceph_auth_sec_usage_type.getD "ceph",
                   secret_uuid := env.secretUuid }) := by
  constructor
  · intro hnauth
    refine ⟨?_, ?_, ?_, ?_⟩
    · intro pa ct hmem
      rcases setup_no_auth_events env w p hnauth _ hmem with
        ⟨v, h⟩ | ⟨l, h⟩ | ⟨m, pa2, h⟩ | ⟨m, po, im, kf, h⟩ | ⟨s, h⟩ <;>
        exact Event.noConfusion h
    · intro us n uu hmem
      rcases setup_no_auth_events env w p hnauth _ hmem with
        ⟨v, h⟩ | ⟨l, h⟩ | ⟨m, pa2, h⟩ | ⟨m, po, im, kf, h⟩ | ⟨s, h⟩ <;>
        exact Event.noConfusion h
    · intro uu v hmem
      rcases setup_no_auth_events env w p hnauth _ hmem with
        ⟨v2, h⟩ | ⟨l, h⟩ | ⟨m, pa2, h⟩ | ⟨m, po, im, kf, h⟩ | ⟨s, h⟩ <;>
        exact Event.noConfusion h
    · rw [dacl_disk_auth_dict, init_is_auth, if_neg (by simp [hnauth]),
          init_disk_auth_dict]
  · intro hauth hin
    rcases setup_events_decomp env w p hin with ⟨rest, hEq, hShape⟩
    refine ⟨?_, ?_, ?_, ?_⟩
    · rw [hEq]
      refine List.mem_append.mpr (Or.inl (List.mem_append.mpr (Or.inl
        (List.mem_append.mpr (Or.inr ?_)))))
      rw [init_events, if_pos hauth]
      exact List.mem_cons_of_mem _ (List.mem_singleton.mpr rfl)
    · rw [hEq]
      refine List.mem_append.mpr (Or.inl (List.mem_append.mpr (Or.inr ?_)))
      rw [dacl_events, init_is_auth, if_pos hauth, init_usage]
      exact List.mem_cons_self _ _
    · rw [hEq]
      refine List.mem_append.mpr (Or.inl (List.mem_append.mpr (Or.inr ?_)))
      rw [dacl_events, init_is_auth, if_pos hauth, init_auth_key]
      exact List.mem_cons_of_mem _ (List.mem_singleton.mpr rfl)
    · rw [dacl_disk_auth_dict, init_is_auth, if_pos hauth, init_auth_user, init_usage]

/-- C4 witness: at concrete auth parameters, the secret creation occurs. -/
theorem C4_auth_all_or_nothing_witness :
    Event.createSecret "ceph" "ceph_auth_secret" "sec-uuid-1"
      ∈ (create_or_cleanup_ceph_backend_vm_disk sampleEnv initWorld sampleParams true).2.1 :=
  ((C4_auth_all_or_nothing sampleEnv initWorld sampleParams).2 (by decide) rfl).2.1

/-- C5: with both client credentials set, the constructor writes exactly
the string composed of the bracketed principal, a newline, a tab, and the
key assignment line to the key file. -/
theorem C5_key_file_exact_content (env : Env) (w : World) (p : Params)
    (n k : String) (hn : p.ceph_client_name = some n) (hn2 : n ≠ "")
    (hk : p.ceph_client_key = some k) (hk2 : k ≠ "") :
    fsRead (Config.init env w p).1.fs (env.tmpDir ++ "/ceph.key")
      = some ("[" ++ n ++ "]\n\tkey = " ++ k ++ "\n")
    ∧ Event.writeFile (env.tmpDir ++ "/ceph.key")
        ("[" ++ n ++ "]\n\tkey = " ++ k ++ "\n") ∈ (Config.init env w p).2.1 := by
  have hauth : (truthy p.ceph_client_name && truthy p.ceph_client_key) = true := by
    rw [hn, hk]
    simp [truthy, hn2, hk2]
  have hpn : pyStr p.ceph_client_name = n := by
    rw [hn]
    rfl
  have hpk : pyStr p.ceph_client_key = k := by
    rw [hk]
    rfl
  constructor
  · rw [init_key_file_content env w p hauth, hpn, hpk]
    rfl
  · rw [init_events, if_pos hauth, hpn, hpk]
    exact List.mem_cons_of_mem _ (List.mem_singleton.mpr rfl)

/-- C5 witness at concrete credentials. -/
theorem C5_key_file_exact_content_witness :
    fsRead (Config.init sampleEnv initWorld sampleParams).1.fs ("/tmp" ++ "/ceph.key")
      = some ("[" ++ "client.admin" ++ "]\n\tkey = " ++ "AQAKEY" ++ "\n") :=
  (C5_key_file_exact_content sampleEnv initWorld sampleParams "client.admin" "AQAKEY"
    rfl (by decide) rfl (by decide)).1

/-- C6: with a composite name that splits into exactly pool and image, the
rbd_image_rm collaborator is invoked with that pool and that image on both
the setup and the teardown paths. -/
theorem C6_remove_image_receives_pool_and_image (env : Env) (w w2 : World)
    (p : Params) (pool image : String) (hin : env.installOk = true)
    (hsplit : pySplit (p.ceph_disk_name.getD "EXAMPLE_SOURCE_NAME") '/'
        = [pool, image]) :
    (∃ kf, Event.rbdImageRm (p.ceph_mon_ip.getD "EXAMPLE_MON_HOST") pool image kf
        ∈ (create_or_cleanup_ceph_backend_vm_disk env w p true).2.1)
    ∧ (∃ kf, Event.rbdImageRm (p.ceph_mon_ip.getD "EXAMPLE_MON_HOST") pool image kf
        ∈ (create_or_cleanup_ceph_backend_vm_disk env w2 p false).2.1) := by
  constructor
  · have hd : pySplit ((Config.init env w p).2.2.define_auth_config_and_log env
        (Config.init env w p).1).2.2.ceph_disk_name '/' = pool :: image :: [] := by
      rw [dacl_disk_name, init_disk_name]
      exact hsplit
    have hrm := remove_image_ok ((Config.init env w p).2.2.define_auth_config_and_log env
        (Config.init env w p).1).2.2 ((Config.init env w p).2.2.define_auth_config_and_log env
        (Config.init env w p).1).1 pool image [] hd
    refine ⟨((Config.init env w p).2.2.define_auth_config_and_log env
        (Config.init env w p).1).2.2.rbd_key_file, ?_⟩
    simp [create_or_cleanup_ceph_backend_vm_disk, hin, hrm, create_image_result]
  · rw [teardown_decomp env w2 p hin pool image [] hsplit]
    refine ⟨(Config.init env w2 p).2.2.rbd_key_file, ?_⟩
    simp

/-- C6 witness at a concrete composite name. -/
theorem C6_remove_image_receives_pool_and_image_witness :
    ∃ kf, Event.rbdImageRm "EXAMPLE_MON_HOST" "rbd_pool" "rbd_img" kf
      ∈ (create_or_cleanup_ceph_backend_vm_disk sampleEnv initWorld sampleParams false).2.1 :=
  (C6_remove_image_receives_pool_and_image sampleEnv initWorld initWorld sampleParams
    "rbd_pool" "rbd_img" rfl (by decide)).2

/-- C8: the dispatch of _update_vm matches the claim when the function is
reached — no action under keep_raw_image_as, the hot-attach alone under
hotplug, the document add-and-sync alone otherwise — but no setup call of
this snapshot ever reaches it: the AttributeError of _create_image aborts
setup first, so the trace of every setup call holds neither an attach nor a
document mutation, contradicting the exactly-one half of the claim. -/
theorem C8_update_vm_dispatch_never_reached (env : Env) (w : World) (p : Params)
    (c : Config) (w2 : World) (v : String) :
    (c.keep_raw_image_as = true → (update_vm c w2 v).2.1 = [Event.dumpXml v])
    ∧ (c.keep_raw_image_as = false → c.hotplug = true →
        (update_vm c w2 v).2.1
          = [Event.dumpXml v, Event.attachDevice v c.attach_option])
    ∧ (c.keep_raw_image_as = false → c.hotplug = false →
        (update_vm c w2 v).2.1 = [Event.dumpXml v, Event.addDeviceSync v])
    ∧ (∀ vn fl, Event.attachDevice vn fl
        ∉ (create_or_cleanup_ceph_backend_vm_disk env w p true).2.1)
    ∧ (∀ vn, Event.addDeviceSync vn
        ∉ (create_or_cleanup_ceph_backend_vm_disk env w p true).2.1) := by
  refine ⟨?_, ?_, ?_, ?_, ?_⟩
  · intro h
    simp [update_vm, h]
  · intro h1 h2
    simp [update_vm, h1, h2]
  · intro h1 h2
    simp [update_vm, h1, h2]
  · intro vn fl hmem
    rcases setup_events_shape env w p _ hmem with
      ⟨v2, h⟩ | ⟨l, h⟩ | ⟨m, pa, h⟩ | ⟨pa, ct, h⟩ | ⟨us, n, uu, h⟩ | ⟨uu, v2, h⟩
        | ⟨m, po, im, kf, h⟩ | ⟨s, h⟩ <;>
      exact Event.noConfusion h
  · intro vn hmem
    rcases setup_events_shape env w p _ hmem with
      ⟨v2, h⟩ | ⟨l, h⟩ | ⟨m, pa, h⟩ | ⟨pa, ct, h⟩ | ⟨us, n, uu, h⟩ | ⟨uu, v2, h⟩
        | ⟨m, po, im, kf, h⟩ | ⟨s, h⟩ <;>
      exact Event.noConfusion h

/-- C8 witness: no live attach occurs in a concrete setup call. -/
theorem C8_update_vm_dispatch_never_reached_witness :
    Event.attachDevice "vm1" "--live"
      ∉ (create_or_cleanup_ceph_backend_vm_disk sampleEnv initWorld sampleParams true).2.1 :=
  (C8_update_vm_dispatch_never_reached sampleEnv initWorld sampleParams
    (Config.init sampleEnv initWorld sampleParams).2.2 initWorld "vm1").2.2.2.1
    "vm1" "--live"

/-- C10: every call builds a fresh config whose constructor appends the
key-file path and the config-file path to the process-global cleanup list
(duplicates accumulating across calls), creates the cluster config file,
and in the auth case rewrites the key file; the final conjunct shows a
concrete teardown call recreating both files before _cleanup_files removes
them, leaving neither on disk. -/
theorem C10_constructor_reruns_on_teardown (env : Env) (w : World) (p : Params) :
    (Config.init env w p).1.cleanupList
      = w.cleanupList ++ [env.tmpDir ++ "/ceph.key", env.cfgFilePath]
    ∧ (Config.init env (Config.init env w p).1 p).1.cleanupList
      = w.cleanupList ++ [env.tmpDir ++ "/ceph.key", env.cfgFilePath]
          ++ [env.tmpDir ++ "/ceph.key", env.cfgFilePath]
    ∧ fsExists (Config.init env w p).1.fs env.cfgFilePath = true
    ∧ ((truthy p.ceph_client_name && truthy p.ceph_client_key) = true →
        fsRead (Config.init env w p).1.fs (env.tmpDir ++ "/ceph.key")
          = some (authKeyContent (pyStr p.ceph_client_name) (pyStr p.ceph_client_key)))
    ∧ (create_or_cleanup_ceph_backend_vm_disk sampleEnv initWorld sampleParams false).2.1
      = [Event.dumpXml "vm1", Event.packageInstall ["ceph-common"],
         Event.createConfigFile "EXAMPLE_MON_HOST" "/etc/ceph/ceph.conf",
         Event.writeFile "/tmp/ceph.key" "[client.admin]\n\tkey = AQAKEY\n",
         Event.rbdImageRm "EXAMPLE_MON_HOST" "rbd_pool" "rbd_img" (some "/tmp/ceph.key"),
         Event.removeFile "/tmp/ceph.key", Event.removeFile "/etc/ceph/ceph.conf"]
    ∧ fsExists (create_or_cleanup_ceph_backend_vm_disk sampleEnv initWorld
          sampleParams false).1.fs "/tmp/ceph.key" = false
    ∧ fsExists (create_or_cleanup_ceph_backend_vm_disk sampleEnv initWorld
          sampleParams false).1.fs "/etc/ceph/ceph.conf" = false := by
  refine ⟨init_cleanupList env w p, ?_, init_cfg_file_exists env w p,
      init_key_file_content env w p, by decide, by decide, by decide⟩
  rw [init_cleanupList, init_cleanupList]

/-- C10 witness: the auth-case key-file rewrite at concrete parameters. -/
theorem C10_constructor_reruns_on_teardown_witness :
    fsRead (Config.init sampleEnv initWorld sampleParams).1.fs ("/tmp" ++ "/ceph.key")
      = some (authKeyContent (pyStr (some "client.admin")) (pyStr (some "AQAKEY"))) :=
  (C10_constructor_reruns_on_teardown sampleEnv initWorld sampleParams).2.2.2.1 (by decide)

end LibvirtCephUtils
